import Mathlib

/-!
Verification of the PyPOTS training-lifecycle orchestrator, as implemented by
`CSDI._train_model` / `CSDI.fit` in `src/pypots/imputation/csdi/model.py`, with
the pluggable metric direction tag from `src/pypots/nn/modules/loss.py`
(class `Criterion`, field `lower_better`).

The embedding models IEEE-style floating point values abstractly (NaN, the two
infinities, and exact finite values as rationals), the per-epoch loop of
`_train_model` as a step function on an explicit training state, and the
interrupt / exception control flow as explicit epoch events and run outcomes.
The single live parameter set that the optimizer mutates in place is explicit
(`live_params`), and `self.model.state_dict()` (line 293) is modelled as what
it is in the source: a dictionary referencing those live tensors, taken with
no copy (contrast `timellm/model.py` lines 218-220, which wrap `state_dict()`
in `deepcopy`), so that the load at the end of `fit` observes the live values
and not the values the dictionary held when it was captured.
-/

namespace PyPOTS

/-- Abstract IEEE-style float: NaN, +infinity, -infinity, or a finite value
(modelled exactly as a rational).  Comparisons follow IEEE semantics: every
comparison that involves NaN is false. -/
inductive Flt where
  | nan : Flt
  | inf : Flt
  | ninf : Flt
  | fin : ℚ → Flt
deriving DecidableEq

/-- IEEE `<` on abstract floats: false whenever either side is NaN. -/
def Flt.lt : Flt → Flt → Bool
  | .nan, _ => false
  | _, .nan => false
  | .inf, _ => false
  | _, .inf => true
  | .ninf, .ninf => false
  | .ninf, .fin _ => true
  | .fin _, .ninf => false
  | .fin a, .fin b => decide (a < b)

/-- IEEE `>` on abstract floats (`a > b` is `b < a`). -/
def Flt.gt (a b : Flt) : Bool := Flt.lt b a

/-- The `np.isnan` test. -/
def Flt.isNan : Flt → Bool
  | .nan => true
  | _ => false

/-- The base class of all loss functions and metrics
(`pypots/nn/modules/loss.py`, class `Criterion`): a criterion carries its
direction tag `lower_better` (default `true`). -/
structure Criterion where
  lower_better : Bool := true
deriving DecidableEq

/-- What happens to an epoch of the training loop, at the loop's own
granularity: the epoch runs to the point where its mean loss / validation
metric is available, or a `KeyboardInterrupt` arrives mid-epoch, or some other
exception is raised mid-epoch. -/
inductive EpochEvent where
  | metric : Flt → EpochEvent
  | interrupt : EpochEvent
  | failure : EpochEvent
deriving DecidableEq

/-- Configuration of one `_train_model` run, abstracted over the parameter
value type `P`.  `validation_metric` mirrors `self.validation_metric`
(a `Criterion` or `None`; `CSDI.__init__` line 166 sets it to `None`).
`paramsAt e` is the value the live model parameters hold once the training
phase of epoch `e` (the batch loop of lines 240-248) has applied its
optimizer steps in place; `paramsAt 0` is their initial value.  There is a
single live parameter set, and the optimizer mutates it destructively — no
part of the source copies it.  `events e` is what epoch `e` would do if
executed. -/
structure TConfig (P : Type) where
  epochs : ℕ
  validation_metric : Option Criterion
  original_patience : Option ℤ
  model_saving_strategy : Option String
  enableHPO : Bool
  clsName : String
  validation_metric_name : String
  paramsAt : ℕ → P
  events : ℕ → EpochEvent

/-- The mutable training state of `_train_model`, plus the observable event
logs (tensorboard/log lines are abstracted into `metricsSeen`, NaN warnings
into `nanWarnings`, confirmed checkpoint saves into `saves`, NNI reports into
`interReports`/`finalReports`, and the interrupt warning into
`interruptWarned`).  `live_params` is the current value of the single live
parameter set, mutated in place by each epoch's training phase.
`best_model_dict` records the dictionary stored by line 293, identified by
the content it held when captured; because `state_dict()` returns references
to the live tensors rather than a copy, the values actually observable
through that dictionary at any later time are `live_params`, which is what
the final load reads. -/
structure TState (P : Type) where
  live_params : P
  best_loss : Flt
  best_epoch : Option ℕ
  best_model_dict : Option P
  patience : Option ℤ
  metricsSeen : List Flt
  nanWarnings : List ℕ
  saves : List (ℕ × String)
  interReports : List Flt
  finalReports : List Flt
  interruptWarned : Bool

/-- Modelled from the spec: the base-class `__init__` (not under `src/`)
initializes the patience accounting; per the spec (section 3), `patience`
absent means early stopping is disabled.  `_train_model` itself (lines
231-233) resets `best_loss` to `+inf` and `best_model_dict` to `None`; the
spec says the whole `TrainingState` is created fresh at the start of each
`run()`. -/
def initState (cfg : TConfig P) : TState P :=
  { live_params := cfg.paramsAt 0
    best_loss := Flt.inf
    best_epoch := none
    best_model_dict := none
    patience := cfg.original_patience
    metricsSeen := []
    nanWarnings := []
    saves := []
    interReports := []
    finalReports := []
    interruptWarned := false }

/-- The improvement test of `_train_model` lines 288-290:
`(self.validation_metric.lower_better and mean_loss < self.best_loss) or
(not self.validation_metric.lower_better and mean_loss > self.best_loss)`. -/
def newBestTest (lower_better : Bool) (mean_loss best_loss : Flt) : Bool :=
  (lower_better && Flt.lt mean_loss best_loss) ||
    (!lower_better && Flt.gt mean_loss best_loss)

/-- Decimal rendering of an abstract float with 4 fractional digits,
modelling the Python format specifier `:.4f`. -/
def pad4 (k : ℕ) : String :=
  if k < 10 then "000" ++ toString k
  else if k < 100 then "00" ++ toString k
  else if k < 1000 then "0" ++ toString k
  else toString k

/-- Render an abstract float the way `f"{mean_loss:.4f}"` does: the exact
value is scaled by `10^4` and rounded to the nearest integer
(`floor (q * 10000 + 1/2)`, computed on the exact fraction). -/
def fmt4 : Flt → String
  | .nan => "nan"
  | .inf => "inf"
  | .ninf => "-inf"
  | .fin q =>
    let n : ℤ := Int.fdiv (q.num * 20000 + (q.den : ℤ)) (2 * (q.den : ℤ))
    let a : ℕ := n.natAbs
    (if n < 0 then "-" else "") ++ toString (a / 10000) ++ "." ++ pad4 (a % 10000)

/-- The checkpoint artifact name of `_train_model` line 301:
`f"{self.__class__.__name__}_epoch{epoch}_{self.validation_metric_name}{mean_loss:.4f}"`. -/
def savingName (cfg : TConfig P) (epoch : ℕ) (mean_loss : Flt) : String :=
  cfg.clsName ++ "_epoch" ++ toString epoch ++ "_" ++
    cfg.validation_metric_name ++ fmt4 mean_loss

/-- The training phase of an epoch (the batch loop of lines 240-248): the
optimizer steps mutate the single live parameter set in place, leaving it at
its post-epoch value.  Nothing else of the state is touched, and no copy of
the previous parameters survives. -/
def trainPhase (cfg : TConfig P) (epoch : ℕ) (s : TState P) : TState P :=
  { s with live_params := cfg.paramsAt epoch }

/-- Epoch logging (lines 275-283) and the NaN guard warning (lines 285-286):
the observed mean loss of the epoch is recorded, and a non-fatal warning is
emitted when it is NaN. -/
def logStep (epoch : ℕ) (mean_loss : Flt) (s : TState P) : TState P :=
  if mean_loss.isNan then
    { s with metricsSeen := s.metricsSeen ++ [mean_loss]
             nanWarnings := s.nanWarnings ++ [epoch] }
  else
    { s with metricsSeen := s.metricsSeen ++ [mean_loss] }

/-- The best-model tracking of lines 288-296: on a direction-consistent
improvement record the epoch, the metric, and the dictionary
`self.model.state_dict()` — a reference to the live tensors taken with no
copy, recorded here by the content it holds at capture time, namely the
current `live_params`; and reset the patience.  Otherwise decrement the
patience (a no-op when early stopping is disabled, per the spec).  Later
training phases keep mutating the referenced live tensors, so the values
eventually loaded through this dictionary are the `live_params` of that later
time, not the content captured here. -/
def bestStep (cfg : TConfig P) (epoch : ℕ) (mean_loss : Flt) (lower_better : Bool)
    (s : TState P) : TState P :=
  if newBestTest lower_better mean_loss s.best_loss then
    { s with best_epoch := some epoch
             best_loss := mean_loss
             best_model_dict := some s.live_params
             patience := cfg.original_patience }
  else
    { s with patience := Option.map (fun p => p - 1) s.patience }

/-- The per-epoch checkpoint offer of lines 298-302, with
`confirm_saving = (self.best_epoch == epoch and self.model_saving_strategy == "better")`.
Modelled from the spec for the part outside `src/`: the base-class method
`_auto_save_model_if_necessary` persists during the loop exactly under the
`All` strategy or when the offer is confirmed (CheckpointManager table,
spec section 4.2). -/
def saveStep (cfg : TConfig P) (epoch : ℕ) (mean_loss : Flt) (s : TState P) : TState P :=
  if cfg.model_saving_strategy = some "all" ∨
      (s.best_epoch = some epoch ∧ cfg.model_saving_strategy = some "better") then
    { s with saves := s.saves ++ [(epoch, savingName cfg epoch mean_loss)] }
  else s

/-- The HPO reporting block of lines 304-307: when enabled, report the epoch
metric as an intermediate result, and report `best_loss` as the final result
when `epoch == self.epochs - 1` or the patience has reached zero. -/
def hpoStep (cfg : TConfig P) (epoch : ℕ) (mean_loss : Flt) (s : TState P) : TState P :=
  if cfg.enableHPO then
    if epoch = cfg.epochs - 1 ∨ s.patience = some 0 then
      { s with interReports := s.interReports ++ [mean_loss]
               finalReports := s.finalReports ++ [s.best_loss] }
    else
      { s with interReports := s.interReports ++ [mean_loss] }
  else s

/-- How the training loop can leave its `for epoch` loop. -/
inductive Exit where
  | completed
  | earlyStop : ℕ → Exit
  | interrupted : ℕ → Exit
  | failed : ℕ → Exit
deriving DecidableEq

/-- One epoch of the `for epoch in range(1, self.epochs + 1)` loop of
`_train_model`.  A mid-epoch `KeyboardInterrupt` or exception aborts the loop
with the corresponding exit (modelled as arriving before the epoch's training
phase has replaced the live parameters).  Otherwise the training phase
mutates the live parameters, the epoch's mean loss is logged, the improvement
test is evaluated (reading `self.validation_metric.lower_better`, which
raises an attribute error caught by the generic handler when
`self.validation_metric` is `None`), the checkpoint offer and HPO reports are
made, and the loop breaks when the patience has reached zero. -/
def processEpoch (cfg : TConfig P) (epoch : ℕ) (s : TState P) : TState P × Option Exit :=
  match cfg.events epoch with
  | EpochEvent.interrupt => (s, some (Exit.interrupted epoch))
  | EpochEvent.failure => (s, some (Exit.failed epoch))
  | EpochEvent.metric mean_loss =>
    match cfg.validation_metric with
    | none =>
      (logStep epoch mean_loss (trainPhase cfg epoch s), some (Exit.failed epoch))
    | some c =>
      let s1 := hpoStep cfg epoch mean_loss
        (saveStep cfg epoch mean_loss
          (bestStep cfg epoch mean_loss c.lower_better
            (logStep epoch mean_loss (trainPhase cfg epoch s))))
      if s1.patience = some 0 then (s1, some (Exit.earlyStop epoch)) else (s1, none)

/-- The epoch loop of `_train_model`, iterated over the list of epoch
indices. -/
def trainLoop (cfg : TConfig P) : List ℕ → TState P → TState P × Exit
  | [], s => (s, Exit.completed)
  | epoch :: rest, s =>
    match processEpoch cfg epoch s with
    | (s1, some ex) => (s1, ex)
    | (s1, none) => trainLoop cfg rest s1

/-- Overall outcome of `_train_model` followed by the load in `fit`
(`self.model.load_state_dict(self.best_model_dict)`, line 372): either the
stored dictionary is handed to `load_state_dict` (the `ok` payload is that
dictionary, identified by its captured content), or the `RuntimeError` of
line 318, or the `ValueError` of line 329 is raised and nothing is loaded.
Because the dictionary references the live tensors, the parameter values the
model actually holds after the load are not the `ok` payload but the
`modelParams` field of `RunResult`. -/
inductive Outcome (P : Type) where
  | ok : Option P → Outcome P
  | fatalRuntime : Outcome P
  | fatalValue : Outcome P
deriving DecidableEq

/-- Result of a full run: the final training state, how the loop exited, the
outcome surfaced to the caller of `fit`, and `modelParams`, the values the
live model parameters hold when `fit` returns or raises.  Line 372's
`load_state_dict(self.best_model_dict)` copies from the dictionary's tensors
into the model's parameters, but those are the very same live tensors (no
copy was ever taken on the snapshot path), so the load leaves the live
values in place: `modelParams` is the final `live_params` on every path. -/
structure RunResult (P : Type) where
  state : TState P
  exit : Exit
  outcome : Outcome P
  modelParams : P

/-- The post-loop check of lines 328-329
(`if np.isnan(self.best_loss) or self.best_loss.__eq__(float("inf"))`)
followed, when it passes, by the `fit` load of line 372 (a self-load of the
live tensors, leaving `live_params` as the model's parameters). -/
def postOutcome (s : TState P) (ex : Exit) : RunResult P :=
  if s.best_loss.isNan = true ∨ s.best_loss = Flt.inf then
    ⟨s, ex, Outcome.fatalValue, s.live_params⟩
  else
    ⟨s, ex, Outcome.ok s.best_model_dict, s.live_params⟩

/-- A full `fit` run: the epoch loop from a fresh state, the exception
handlers of lines 313-326 (`KeyboardInterrupt` logs a warning; any other
exception re-raises as `RuntimeError` when no best model exists, and is
otherwise absorbed), the post-loop divergence check, and the final load. -/
def runTrain (cfg : TConfig P) : RunResult P :=
  match trainLoop cfg (List.range' 1 cfg.epochs) (initState cfg) with
  | (s, Exit.failed e) =>
    match s.best_model_dict with
    | none => ⟨s, Exit.failed e, Outcome.fatalRuntime, s.live_params⟩
    | some _ => postOutcome s (Exit.failed e)
  | (s, Exit.interrupted e) =>
    postOutcome { s with interruptWarned := true } (Exit.interrupted e)
  | (s, ex) => postOutcome s ex

/-- The value `CSDI.__init__` (line 166) leaves in `self.validation_metric`:
`None`, set unconditionally after the superclass call. -/
def CSDI_init_validation_metric : Option Criterion := none

/-- A training configuration as a constructed `CSDI` estimator has it:
`validation_metric` is `None` (line 166), the class name is `"CSDI"` and the
validation metric name is `"metric (default)"` (line 167). -/
def csdiTrainConfig (epochs : ℕ) (original_patience : Option ℤ)
    (model_saving_strategy : Option String) (enableHPO : Bool)
    (paramsAt : ℕ → P) (events : ℕ → EpochEvent) : TConfig P :=
  { epochs := epochs
    validation_metric := CSDI_init_validation_metric
    original_patience := original_patience
    model_saving_strategy := model_saving_strategy
    enableHPO := enableHPO
    clsName := "CSDI"
    validation_metric_name := "metric (default)"
    paramsAt := paramsAt
    events := events }

/-- Build the per-epoch event function from a list of per-epoch metrics
(epoch `e` reads entry `e - 1`). -/
def eventsOf (metrics : List Flt) : ℕ → EpochEvent :=
  fun epoch => EpochEvent.metric (metrics.getD (epoch - 1) (Flt.fin 0))

/-- Build the per-epoch event function from a list of epoch events. -/
def eventsOfE (l : List EpochEvent) : ℕ → EpochEvent :=
  fun epoch => l.getD (epoch - 1) (EpochEvent.metric (Flt.fin 0))

/-! Basic facts about the abstract float order. -/

theorem Flt.lt_nan_left (b : Flt) : Flt.lt Flt.nan b = false := by
  cases b <;> rfl

theorem Flt.lt_nan_right (a : Flt) : Flt.lt a Flt.nan = false := by
  cases a <;> rfl

theorem Flt.lt_inf_left (b : Flt) : Flt.lt Flt.inf b = false := by
  cases b <;> rfl

theorem Flt.lt_inf_of_lt {a b : Flt} (h : Flt.lt a b = true) :
    Flt.lt a Flt.inf = true := by
  cases a <;> cases b <;> simp_all [Flt.lt]

theorem Flt.ne_nan_of_lt_inf {a : Flt} (h : Flt.lt a Flt.inf = true) :
    a.isNan = false := by
  cases a <;> simp_all [Flt.lt, Flt.isNan]

theorem Flt.ne_inf_of_lt_inf {a : Flt} (h : Flt.lt a Flt.inf = true) :
    a ≠ Flt.inf := by
  cases a <;> simp_all [Flt.lt]

theorem newBestTest_nan (lb : Bool) (best : Flt) :
    newBestTest lb Flt.nan best = false := by
  cases lb <;> simp [newBestTest, Flt.gt, Flt.lt_nan_left, Flt.lt_nan_right]

theorem newBestTest_higher_inf (m : Flt) :
    newBestTest false m Flt.inf = false := by
  simp [newBestTest, Flt.gt, Flt.lt_inf_left]

theorem newBestTest_lower_lt_inf {m best : Flt}
    (h : newBestTest true m best = true) : Flt.lt m Flt.inf = true := by
  simp only [newBestTest, Bool.true_and, Bool.not_true, Bool.false_and,
    Bool.or_false] at h
  exact Flt.lt_inf_of_lt h

/-! Field-effect lemmas for the epoch sub-steps. -/

theorem trainPhase_best_loss (cfg : TConfig P) (epoch : ℕ) (s : TState P) :
    (trainPhase cfg epoch s).best_loss = s.best_loss := rfl

theorem trainPhase_best_epoch (cfg : TConfig P) (epoch : ℕ) (s : TState P) :
    (trainPhase cfg epoch s).best_epoch = s.best_epoch := rfl

theorem trainPhase_best_model_dict (cfg : TConfig P) (epoch : ℕ) (s : TState P) :
    (trainPhase cfg epoch s).best_model_dict = s.best_model_dict := rfl

theorem trainPhase_patience (cfg : TConfig P) (epoch : ℕ) (s : TState P) :
    (trainPhase cfg epoch s).patience = s.patience := rfl

theorem trainPhase_saves (cfg : TConfig P) (epoch : ℕ) (s : TState P) :
    (trainPhase cfg epoch s).saves = s.saves := rfl

theorem trainPhase_metricsSeen (cfg : TConfig P) (epoch : ℕ) (s : TState P) :
    (trainPhase cfg epoch s).metricsSeen = s.metricsSeen := rfl

theorem trainPhase_nanWarnings (cfg : TConfig P) (epoch : ℕ) (s : TState P) :
    (trainPhase cfg epoch s).nanWarnings = s.nanWarnings := rfl

theorem trainPhase_live_params (cfg : TConfig P) (epoch : ℕ) (s : TState P) :
    (trainPhase cfg epoch s).live_params = cfg.paramsAt epoch := rfl

theorem logStep_live_params (epoch : ℕ) (m : Flt) (s : TState P) :
    (logStep epoch m s).live_params = s.live_params := by
  unfold logStep; split <;> rfl

theorem logStep_best_loss (epoch : ℕ) (m : Flt) (s : TState P) :
    (logStep epoch m s).best_loss = s.best_loss := by
  unfold logStep; split <;> rfl

theorem logStep_best_epoch (epoch : ℕ) (m : Flt) (s : TState P) :
    (logStep epoch m s).best_epoch = s.best_epoch := by
  unfold logStep; split <;> rfl

theorem logStep_best_model_dict (epoch : ℕ) (m : Flt) (s : TState P) :
    (logStep epoch m s).best_model_dict = s.best_model_dict := by
  unfold logStep; split <;> rfl

theorem logStep_patience (epoch : ℕ) (m : Flt) (s : TState P) :
    (logStep epoch m s).patience = s.patience := by
  unfold logStep; split <;> rfl

theorem logStep_saves (epoch : ℕ) (m : Flt) (s : TState P) :
    (logStep epoch m s).saves = s.saves := by
  unfold logStep; split <;> rfl

theorem logStep_metricsSeen (epoch : ℕ) (m : Flt) (s : TState P) :
    (logStep epoch m s).metricsSeen = s.metricsSeen ++ [m] := by
  unfold logStep; split <;> rfl

theorem logStep_nanWarnings_nan (epoch : ℕ) {m : Flt} (h : m.isNan = true)
    (s : TState P) : (logStep epoch m s).nanWarnings = s.nanWarnings ++ [epoch] := by
  unfold logStep; simp [h]

theorem saveStep_best_loss (cfg : TConfig P) (epoch : ℕ) (m : Flt) (s : TState P) :
    (saveStep cfg epoch m s).best_loss = s.best_loss := by
  unfold saveStep; split <;> rfl

theorem saveStep_best_epoch (cfg : TConfig P) (epoch : ℕ) (m : Flt) (s : TState P) :
    (saveStep cfg epoch m s).best_epoch = s.best_epoch := by
  unfold saveStep; split <;> rfl

theorem saveStep_best_model_dict (cfg : TConfig P) (epoch : ℕ) (m : Flt) (s : TState P) :
    (saveStep cfg epoch m s).best_model_dict = s.best_model_dict := by
  unfold saveStep; split <;> rfl

theorem saveStep_patience (cfg : TConfig P) (epoch : ℕ) (m : Flt) (s : TState P) :
    (saveStep cfg epoch m s).patience = s.patience := by
  unfold saveStep; split <;> rfl

theorem saveStep_metricsSeen (cfg : TConfig P) (epoch : ℕ) (m : Flt) (s : TState P) :
    (saveStep cfg epoch m s).metricsSeen = s.metricsSeen := by
  unfold saveStep; split <;> rfl

theorem saveStep_nanWarnings (cfg : TConfig P) (epoch : ℕ) (m : Flt) (s : TState P) :
    (saveStep cfg epoch m s).nanWarnings = s.nanWarnings := by
  unfold saveStep; split <;> rfl

theorem hpoStep_best_loss (cfg : TConfig P) (epoch : ℕ) (m : Flt) (s : TState P) :
    (hpoStep cfg epoch m s).best_loss = s.best_loss := by
  unfold hpoStep; split <;> [split <;> rfl; rfl]

theorem hpoStep_best_epoch (cfg : TConfig P) (epoch : ℕ) (m : Flt) (s : TState P) :
    (hpoStep cfg epoch m s).best_epoch = s.best_epoch := by
  unfold hpoStep; split <;> [split <;> rfl; rfl]

theorem hpoStep_best_model_dict (cfg : TConfig P) (epoch : ℕ) (m : Flt) (s : TState P) :
    (hpoStep cfg epoch m s).best_model_dict = s.best_model_dict := by
  unfold hpoStep; split <;> [split <;> rfl; rfl]

theorem hpoStep_patience (cfg : TConfig P) (epoch : ℕ) (m : Flt) (s : TState P) :
    (hpoStep cfg epoch m s).patience = s.patience := by
  unfold hpoStep; split <;> [split <;> rfl; rfl]

theorem hpoStep_saves (cfg : TConfig P) (epoch : ℕ) (m : Flt) (s : TState P) :
    (hpoStep cfg epoch m s).saves = s.saves := by
  unfold hpoStep; split <;> [split <;> rfl; rfl]

theorem hpoStep_metricsSeen (cfg : TConfig P) (epoch : ℕ) (m : Flt) (s : TState P) :
    (hpoStep cfg epoch m s).metricsSeen = s.metricsSeen := by
  unfold hpoStep; split <;> [split <;> rfl; rfl]

theorem hpoStep_nanWarnings (cfg : TConfig P) (epoch : ℕ) (m : Flt) (s : TState P) :
    (hpoStep cfg epoch m s).nanWarnings = s.nanWarnings := by
  unfold hpoStep; split <;> [split <;> rfl; rfl]

theorem bestStep_metricsSeen (cfg : TConfig P) (epoch : ℕ) (m : Flt) (lb : Bool)
    (s : TState P) : (bestStep cfg epoch m lb s).metricsSeen = s.metricsSeen := by
  unfold bestStep; split <;> rfl

theorem bestStep_nanWarnings (cfg : TConfig P) (epoch : ℕ) (m : Flt) (lb : Bool)
    (s : TState P) : (bestStep cfg epoch m lb s).nanWarnings = s.nanWarnings := by
  unfold bestStep; split <;> rfl

theorem bestStep_saves (cfg : TConfig P) (epoch : ℕ) (m : Flt) (lb : Bool)
    (s : TState P) : (bestStep cfg epoch m lb s).saves = s.saves := by
  unfold bestStep; split <;> rfl

theorem bestStep_of_newBest (cfg : TConfig P) (epoch : ℕ) {m : Flt} {lb : Bool}
    {s : TState P} (h : newBestTest lb m s.best_loss = true) :
    bestStep cfg epoch m lb s =
      { s with best_epoch := some epoch
               best_loss := m
               best_model_dict := some s.live_params
               patience := cfg.original_patience } := by
  unfold bestStep; simp [h]

theorem bestStep_of_not_newBest (cfg : TConfig P) (epoch : ℕ) {m : Flt} {lb : Bool}
    {s : TState P} (h : newBestTest lb m s.best_loss = false) :
    bestStep cfg epoch m lb s =
      { s with patience := Option.map (fun p => p - 1) s.patience } := by
  unfold bestStep; simp [h]

/-! Reductions of `processEpoch` for an executed (metric-producing) epoch. -/

theorem processEpoch_metric_fst {cfg : TConfig P} {epoch : ℕ} {m : Flt} {c : Criterion}
    (hm : cfg.events epoch = EpochEvent.metric m)
    (hc : cfg.validation_metric = some c) (s : TState P) :
    (processEpoch cfg epoch s).1 =
      hpoStep cfg epoch m (saveStep cfg epoch m
        (bestStep cfg epoch m c.lower_better
          (logStep epoch m (trainPhase cfg epoch s)))) := by
  unfold processEpoch
  rw [hm, hc]
  dsimp only
  split <;> rfl

theorem processEpoch_metric_snd {cfg : TConfig P} {epoch : ℕ} {m : Flt} {c : Criterion}
    (hm : cfg.events epoch = EpochEvent.metric m)
    (hc : cfg.validation_metric = some c) (s : TState P) :
    (processEpoch cfg epoch s).2 =
      (if (processEpoch cfg epoch s).1.patience = some 0
        then some (Exit.earlyStop epoch) else none) := by
  rw [processEpoch_metric_fst hm hc]
  unfold processEpoch
  rw [hm, hc]
  dsimp only
  split <;> rfl

/-- The run-wide data-consistency invariant of the best-model tracker. -/
structure StateInv (cfg : TConfig P) (s : TState P) : Prop where
  snap_best : ∀ v, s.best_model_dict = some v →
    ∃ b, s.best_epoch = some b ∧ v = cfg.paramsAt b
  none_inf : s.best_model_dict = none → s.best_loss = Flt.inf
  some_lt : ∀ v, s.best_model_dict = some v → Flt.lt s.best_loss Flt.inf = true
  hb_none : ∀ c, cfg.validation_metric = some c → c.lower_better = false →
    s.best_model_dict = none
  seen_iff : ∀ c, cfg.validation_metric = some c → c.lower_better = true →
    s.best_model_dict.isSome = s.metricsSeen.any (fun m => Flt.lt m Flt.inf)
  pat_none : cfg.original_patience = none → s.patience = none

theorem initState_inv (cfg : TConfig P) : StateInv cfg (initState cfg) := by
  constructor <;> intros <;> simp_all [initState]

theorem processEpoch_inv (cfg : TConfig P) (epoch : ℕ) {s : TState P}
    (hs : StateInv cfg s) : StateInv cfg (processEpoch cfg epoch s).1 := by
  cases hev : cfg.events epoch with
  | interrupt => unfold processEpoch; rw [hev]; exact hs
  | failure => unfold processEpoch; rw [hev]; exact hs
  | metric m =>
    cases hvm : cfg.validation_metric with
    | none =>
      unfold processEpoch
      rw [hev, hvm]
      dsimp only
      constructor
      · intro v hv
        rw [logStep_best_model_dict, trainPhase_best_model_dict] at hv
        obtain ⟨b, hb, hval⟩ := hs.snap_best v hv
        exact ⟨b, by rw [logStep_best_epoch, trainPhase_best_epoch]; exact hb, hval⟩
      · intro h
        rw [logStep_best_model_dict, trainPhase_best_model_dict] at h
        rw [logStep_best_loss, trainPhase_best_loss]
        exact hs.none_inf h
      · intro v hv
        rw [logStep_best_model_dict, trainPhase_best_model_dict] at hv
        rw [logStep_best_loss, trainPhase_best_loss]
        exact hs.some_lt v hv
      · intro c hc
        rw [hvm] at hc
        exact absurd hc (by simp)
      · intro c hc
        rw [hvm] at hc
        exact absurd hc (by simp)
      · intro h
        rw [logStep_patience, trainPhase_patience]
        exact hs.pat_none h
    | some c =>
      rw [processEpoch_metric_fst hev hvm]
      by_cases hnb : newBestTest c.lower_better m
        (logStep epoch m (trainPhase cfg epoch s)).best_loss = true
      · -- improving epoch
        have hlt : Flt.lt m Flt.inf = true := by
          cases hlb : c.lower_better with
          | true =>
            rw [hlb] at hnb
            exact newBestTest_lower_lt_inf hnb
          | false =>
            rw [hlb] at hnb
            rw [logStep_best_loss, trainPhase_best_loss] at hnb
            rw [hs.none_inf (hs.hb_none c hvm hlb)] at hnb
            rw [newBestTest_higher_inf] at hnb
            exact absurd hnb (by simp)
        rw [bestStep_of_newBest cfg epoch hnb]
        constructor
        · intro v hv
          rw [hpoStep_best_model_dict, saveStep_best_model_dict] at hv
          refine ⟨epoch, ?_, ?_⟩
          · rw [hpoStep_best_epoch, saveStep_best_epoch]
          · have hv2 : v = (logStep epoch m (trainPhase cfg epoch s)).live_params :=
              (Option.some.inj hv).symm
            rw [hv2, logStep_live_params, trainPhase_live_params]
        · intro h
          rw [hpoStep_best_model_dict, saveStep_best_model_dict] at h
          exact absurd h (by simp)
        · intro v hv
          rw [hpoStep_best_loss, saveStep_best_loss]
          exact hlt
        · intro c' hc' hlb'
          rw [hvm] at hc'
          have hcc : c = c' := Option.some.inj hc'
          rw [← hcc] at hlb'
          rw [hlb'] at hnb
          rw [logStep_best_loss, trainPhase_best_loss,
            hs.none_inf (hs.hb_none c hvm hlb'),
            newBestTest_higher_inf] at hnb
          exact absurd hnb (by simp)
        · intro c' hc' hlb'
          rw [hpoStep_best_model_dict, saveStep_best_model_dict,
            hpoStep_metricsSeen, saveStep_metricsSeen]
          dsimp only
          rw [logStep_metricsSeen, trainPhase_metricsSeen]
          simp [List.any_append, hlt]
        · intro h
          rw [hpoStep_patience, saveStep_patience]
          exact h
      · -- non-improving epoch
        rw [Bool.not_eq_true] at hnb
        rw [bestStep_of_not_newBest cfg epoch hnb]
        constructor
        · intro v hv
          rw [hpoStep_best_model_dict, saveStep_best_model_dict] at hv
          dsimp only at hv
          rw [logStep_best_model_dict, trainPhase_best_model_dict] at hv
          obtain ⟨b, hb, hval⟩ := hs.snap_best v hv
          refine ⟨b, ?_, hval⟩
          rw [hpoStep_best_epoch, saveStep_best_epoch]
          dsimp only
          rw [logStep_best_epoch, trainPhase_best_epoch]
          exact hb
        · intro h
          rw [hpoStep_best_model_dict, saveStep_best_model_dict] at h
          dsimp only at h
          rw [logStep_best_model_dict, trainPhase_best_model_dict] at h
          rw [hpoStep_best_loss, saveStep_best_loss]
          dsimp only
          rw [logStep_best_loss, trainPhase_best_loss]
          exact hs.none_inf h
        · intro v hv
          rw [hpoStep_best_model_dict, saveStep_best_model_dict] at hv
          dsimp only at hv
          rw [logStep_best_model_dict, trainPhase_best_model_dict] at hv
          rw [hpoStep_best_loss, saveStep_best_loss]
          dsimp only
          rw [logStep_best_loss, trainPhase_best_loss]
          exact hs.some_lt v hv
        · intro c' hc' hlb'
          rw [hpoStep_best_model_dict, saveStep_best_model_dict]
          dsimp only
          rw [logStep_best_model_dict, trainPhase_best_model_dict]
          exact hs.hb_none c' hc' hlb'
        · intro c' hc' hlb'
          rw [hvm] at hc'
          have hcc : c' = c := (Option.some.inj hc').symm
          rw [hcc] at hlb'
          rw [hpoStep_best_model_dict, saveStep_best_model_dict,
            hpoStep_metricsSeen, saveStep_metricsSeen]
          dsimp only
          rw [logStep_best_model_dict, trainPhase_best_model_dict,
            logStep_metricsSeen, trainPhase_metricsSeen]
          have hseen := hs.seen_iff c hvm hlb'
          cases hbmd : s.best_model_dict with
          | some v =>
            rw [hbmd] at hseen
            simp only [Option.isSome_some] at hseen
            simp [List.any_append, ← hseen]
          | none =>
            rw [hbmd] at hseen
            simp only [Option.isSome_none] at hseen
            have hbinf : s.best_loss = Flt.inf := hs.none_inf hbmd
            have hmlt : Flt.lt m Flt.inf = false := by
              rw [hlb', logStep_best_loss, trainPhase_best_loss, hbinf] at hnb
              simpa [newBestTest] using hnb
            simp [List.any_append, hmlt, ← hseen]
        · intro h
          rw [hpoStep_patience, saveStep_patience]
          dsimp only
          rw [logStep_patience, trainPhase_patience, hs.pat_none h]
          rfl

theorem trainLoop_inv (cfg : TConfig P) :
    ∀ (l : List ℕ) (s : TState P), StateInv cfg s →
      StateInv cfg (trainLoop cfg l s).1 := by
  intro l
  induction l with
  | nil => intro s hs; exact hs
  | cons a rest ih =>
    intro s hs
    have hp := processEpoch_inv cfg a hs
    unfold trainLoop
    rcases hpe : processEpoch cfg a s with ⟨s1, opt⟩
    rw [hpe] at hp
    cases opt with
    | none => exact ih s1 hp
    | some ex => exact hp

theorem StateInv_warned (cfg : TConfig P) {s : TState P} (h : StateInv cfg s)
    (b : Bool) : StateInv cfg { s with interruptWarned := b } := by
  constructor
  · exact h.snap_best
  · exact h.none_inf
  · exact h.some_lt
  · exact h.hb_none
  · exact h.seen_iff
  · exact h.pat_none

theorem postOutcome_state (s : TState P) (ex : Exit) : (postOutcome s ex).state = s := by
  unfold postOutcome; split <;> rfl

theorem postOutcome_exit (s : TState P) (ex : Exit) : (postOutcome s ex).exit = ex := by
  unfold postOutcome; split <;> rfl

theorem postOutcome_ok {s : TState P} {ex : Exit} {d : Option P}
    (h : (postOutcome s ex).outcome = Outcome.ok d) :
    d = s.best_model_dict ∧ s.best_loss.isNan = false ∧ s.best_loss ≠ Flt.inf := by
  unfold postOutcome at h
  split at h
  · exact absurd h (by simp)
  · rename_i hcond
    simp only [not_or, Bool.not_eq_true] at hcond
    exact ⟨(Outcome.ok.inj h).symm, hcond.1, hcond.2⟩

theorem postOutcome_ok_of {s : TState P} (ex : Exit)
    (h1 : s.best_loss.isNan = false) (h2 : s.best_loss ≠ Flt.inf) :
    (postOutcome s ex).outcome = Outcome.ok s.best_model_dict := by
  unfold postOutcome
  rw [if_neg]
  simp [h1, h2]

theorem runTrain_inv (cfg : TConfig P) : StateInv cfg (runTrain cfg).state := by
  have h := trainLoop_inv cfg (List.range' 1 cfg.epochs) (initState cfg) (initState_inv cfg)
  unfold runTrain
  rcases hr : trainLoop cfg (List.range' 1 cfg.epochs) (initState cfg) with ⟨s, ex⟩
  rw [hr] at h
  cases ex with
  | completed => rw [postOutcome_state]; exact h
  | earlyStop e => rw [postOutcome_state]; exact h
  | interrupted e => rw [postOutcome_state]; exact StateInv_warned cfg h true
  | failed e =>
    dsimp only
    cases hbmd : s.best_model_dict with
    | none => exact h
    | some v => rw [postOutcome_state]; exact h

/-! Lemmas about how the loop can stop. -/

theorem processEpoch_earlyStop {cfg : TConfig P} {epoch e : ℕ} {s s1 : TState P}
    (h : processEpoch cfg epoch s = (s1, some (Exit.earlyStop e))) :
    s1.patience = some 0 ∧ e = epoch := by
  unfold processEpoch at h
  cases hev : cfg.events epoch with
  | interrupt => rw [hev] at h; simp at h
  | failure => rw [hev] at h; simp at h
  | metric m =>
    rw [hev] at h
    cases hvm : cfg.validation_metric with
    | none => rw [hvm] at h; simp at h
    | some c =>
      rw [hvm] at h
      dsimp only at h
      split at h
      · rename_i hcond
        obtain ⟨h1, h2⟩ := Prod.mk.inj h
        constructor
        · rw [← h1]; exact hcond
        · exact (Exit.earlyStop.inj (Option.some.inj h2)).symm
      · simp at h

theorem processEpoch_continue {cfg : TConfig P} {epoch : ℕ} {s s1 : TState P}
    (h : processEpoch cfg epoch s = (s1, none)) : ¬ s1.patience = some 0 := by
  unfold processEpoch at h
  cases hev : cfg.events epoch with
  | interrupt => rw [hev] at h; simp at h
  | failure => rw [hev] at h; simp at h
  | metric m =>
    rw [hev] at h
    cases hvm : cfg.validation_metric with
    | none => rw [hvm] at h; simp at h
    | some c =>
      rw [hvm] at h
      dsimp only at h
      split at h
      · simp at h
      · rename_i hcond
        obtain ⟨h1, _⟩ := Prod.mk.inj h
        rw [← h1]
        exact hcond

theorem trainLoop_earlyStop {cfg : TConfig P} :
    ∀ (l : List ℕ) (s : TState P) (e : ℕ),
      (trainLoop cfg l s).2 = Exit.earlyStop e →
      (trainLoop cfg l s).1.patience = some 0 := by
  intro l
  induction l with
  | nil => intro s e h; simp [trainLoop] at h
  | cons a rest ih =>
    intro s e h
    unfold trainLoop at h ⊢
    rcases hpe : processEpoch cfg a s with ⟨s1, opt⟩
    rw [hpe] at h
    cases opt with
    | none => exact ih s1 e h
    | some ex =>
      dsimp only at h ⊢
      rw [h] at hpe
      exact (processEpoch_earlyStop hpe).1

theorem bestStep_patience_none {cfg : TConfig P} (epoch : ℕ) (m : Flt) (lb : Bool)
    {s : TState P} (ho : cfg.original_patience = none) (hs : s.patience = none) :
    (bestStep cfg epoch m lb s).patience = none := by
  unfold bestStep; split <;> simp [ho, hs]

theorem processEpoch_metric_continue {cfg : TConfig P} {epoch : ℕ} {m : Flt}
    {c : Criterion} (hm : cfg.events epoch = EpochEvent.metric m)
    (hc : cfg.validation_metric = some c) (ho : cfg.original_patience = none)
    {s : TState P} (hs : s.patience = none) :
    (processEpoch cfg epoch s).2 = none ∧ (processEpoch cfg epoch s).1.patience = none := by
  have hpat : (processEpoch cfg epoch s).1.patience = none := by
    rw [processEpoch_metric_fst hm hc, hpoStep_patience, saveStep_patience,
      bestStep_patience_none epoch m c.lower_better ho]
    rw [logStep_patience]
    exact hs
  refine ⟨?_, hpat⟩
  rw [processEpoch_metric_snd hm hc, hpat]
  simp

theorem trainLoop_completed {cfg : TConfig P} {c : Criterion}
    (hc : cfg.validation_metric = some c) (ho : cfg.original_patience = none)
    (hev : ∀ e, ∃ m, cfg.events e = EpochEvent.metric m) :
    ∀ (l : List ℕ) (s : TState P), s.patience = none →
      (trainLoop cfg l s).2 = Exit.completed := by
  intro l
  induction l with
  | nil => intro s _; rfl
  | cons a rest ih =>
    intro s hs
    obtain ⟨m, hm⟩ := hev a
    obtain ⟨hsnd, hpat⟩ := processEpoch_metric_continue hm hc ho hs
    unfold trainLoop
    rcases hpe : processEpoch cfg a s with ⟨s1, opt⟩
    rw [hpe] at hsnd hpat
    dsimp only at hsnd hpat
    cases opt with
    | none => exact ih s1 hpat
    | some ex => simp at hsnd

/-- What `fit` surfaces and loads, seen from just after the training loop:
if the loop result is `(s, ex)`, the run returns `d = s.best_model_dict`
only when the divergence check passes. -/
theorem runTrain_ok {cfg : TConfig P} {d : Option P}
    (h : (runTrain cfg).outcome = Outcome.ok d) :
    d = (runTrain cfg).state.best_model_dict ∧
      (runTrain cfg).state.best_loss ≠ Flt.inf := by
  unfold runTrain at h ⊢
  rcases hr : trainLoop cfg (List.range' 1 cfg.epochs) (initState cfg) with ⟨s, ex⟩
  rw [hr] at h
  cases ex with
  | completed =>
    obtain ⟨h1, _, h3⟩ := postOutcome_ok h
    rw [postOutcome_state]
    exact ⟨h1, h3⟩
  | earlyStop e =>
    obtain ⟨h1, _, h3⟩ := postOutcome_ok h
    rw [postOutcome_state]
    exact ⟨h1, h3⟩
  | interrupted e =>
    obtain ⟨h1, _, h3⟩ := postOutcome_ok h
    rw [postOutcome_state]
    exact ⟨h1, h3⟩
  | failed e =>
    dsimp only at h ⊢
    cases hbmd : s.best_model_dict with
    | none => rw [hbmd] at h; simp at h
    | some v =>
      rw [hbmd] at h
      dsimp only at h ⊢
      obtain ⟨h1, _, h3⟩ := postOutcome_ok h
      rw [postOutcome_state]
      exact ⟨h1, h3⟩

/-! Concrete runs used to exercise the claim theorems. -/

/-- A two-epoch run with improving metrics 5, 4 (lower is better). -/
def cfgC1 : TConfig ℕ :=
  { epochs := 2, validation_metric := some ⟨true⟩, original_patience := none,
    model_saving_strategy := none, enableHPO := false, clsName := "CSDI",
    validation_metric_name := "metric (default)", paramsAt := id,
    events := eventsOf [Flt.fin 5, Flt.fin 4] }

/-- A one-epoch `CSDI` run whose first epoch computes its metric normally. -/
def cfgC3 : TConfig ℕ :=
  csdiTrainConfig 1 none none false id (eventsOf [Flt.fin 5])

/-- A two-epoch lower-is-better run whose first epoch is the best (metrics
3 then 5) and whose parameters keep changing afterwards: `paramsAt 1 = 1`
differs from `paramsAt 2 = 2`. -/
def cfgC1bug : TConfig ℕ :=
  { epochs := 2, validation_metric := some ⟨true⟩, original_patience := none,
    model_saving_strategy := none, enableHPO := false, clsName := "CSDI",
    validation_metric_name := "metric (default)", paramsAt := id,
    events := eventsOf [Flt.fin 3, Flt.fin 5] }

/-- C1.  The snapshot path of line 293 takes no copy: `state_dict()` returns
references to the live tensors, and epoch 2's optimizer steps mutate those
tensors in place.  On `cfgC1bug` the run completes successfully with
`best_epoch = 1`, the recorded dictionary (captured when its content was
`paramsAt 1`) is handed to `load_state_dict`, yet the parameters the model
holds at the end of `fit` are the final epoch's values `paramsAt 2` and not
the best-epoch values — against the claim (and the spec's deep value-copy
promise, honoured elsewhere by the `deepcopy` of `timellm/model.py` lines
218-220), the model ends with the parameters of an epoch later than
`bestEpoch`. -/
theorem C1_state_dict_alias_loads_final_params :
    (runTrain cfgC1bug).state.best_epoch = some 1 ∧
      (runTrain cfgC1bug).exit = Exit.completed ∧
      (runTrain cfgC1bug).outcome = Outcome.ok (some (cfgC1bug.paramsAt 1)) ∧
      (runTrain cfgC1bug).modelParams = cfgC1bug.paramsAt 2 ∧
      ¬ (runTrain cfgC1bug).modelParams = cfgC1bug.paramsAt 1 := by
  decide

/-- C2.  In every executed epoch the best-model state is updated exactly when
the direction-consistent improvement test holds; on improvement the epoch, the
metric, a parameter snapshot and a patience reset are recorded, and otherwise
only the patience is decremented. -/
theorem C2_improvement_rule (cfg : TConfig ℕ) (c : Criterion) (epoch : ℕ)
    (m : Flt) (s : TState ℕ) (hc : cfg.validation_metric = some c)
    (hm : cfg.events epoch = EpochEvent.metric m) :
    (newBestTest c.lower_better m s.best_loss = true →
      (processEpoch cfg epoch s).1.best_epoch = some epoch ∧
      (processEpoch cfg epoch s).1.best_loss = m ∧
      (processEpoch cfg epoch s).1.best_model_dict = some (cfg.paramsAt epoch) ∧
      (processEpoch cfg epoch s).1.patience = cfg.original_patience) ∧
    (newBestTest c.lower_better m s.best_loss = false →
      (processEpoch cfg epoch s).1.best_epoch = s.best_epoch ∧
      (processEpoch cfg epoch s).1.best_loss = s.best_loss ∧
      (processEpoch cfg epoch s).1.best_model_dict = s.best_model_dict ∧
      (processEpoch cfg epoch s).1.patience =
        Option.map (fun p => p - 1) s.patience) := by
  constructor
  · intro hnb
    have hnb' : newBestTest c.lower_better m
        (logStep epoch m (trainPhase cfg epoch s)).best_loss = true := by
      rw [logStep_best_loss, trainPhase_best_loss]; exact hnb
    rw [processEpoch_metric_fst hm hc, bestStep_of_newBest cfg epoch hnb']
    refine ⟨?_, ?_, ?_, ?_⟩
    · rw [hpoStep_best_epoch, saveStep_best_epoch]
    · rw [hpoStep_best_loss, saveStep_best_loss]
    · rw [hpoStep_best_model_dict, saveStep_best_model_dict]
      dsimp only
      rw [logStep_live_params, trainPhase_live_params]
    · rw [hpoStep_patience, saveStep_patience]
  · intro hnb
    have hnb' : newBestTest c.lower_better m
        (logStep epoch m (trainPhase cfg epoch s)).best_loss = false := by
      rw [logStep_best_loss, trainPhase_best_loss]; exact hnb
    rw [processEpoch_metric_fst hm hc, bestStep_of_not_newBest cfg epoch hnb']
    refine ⟨?_, ?_, ?_, ?_⟩
    · rw [hpoStep_best_epoch, saveStep_best_epoch]
      dsimp only
      rw [logStep_best_epoch, trainPhase_best_epoch]
    · rw [hpoStep_best_loss, saveStep_best_loss]
      dsimp only
      rw [logStep_best_loss, trainPhase_best_loss]
    · rw [hpoStep_best_model_dict, saveStep_best_model_dict]
      dsimp only
      rw [logStep_best_model_dict, trainPhase_best_model_dict]
    · rw [hpoStep_patience, saveStep_patience]
      dsimp only
      rw [logStep_patience, trainPhase_patience]

/-- Witness for C2: epoch 1 of `cfgC1` improves on the fresh state and records
metric 5, epoch 1, the snapshot, and a patience reset. -/
theorem C2_witness :
    newBestTest true (Flt.fin 5) (initState cfgC1).best_loss = true ∧
      (processEpoch cfgC1 1 (initState cfgC1)).1.best_epoch = some 1 ∧
      (processEpoch cfgC1 1 (initState cfgC1)).1.best_loss = Flt.fin 5 ∧
      (processEpoch cfgC1 1 (initState cfgC1)).1.best_model_dict =
        some (cfgC1.paramsAt 1) ∧
      (processEpoch cfgC1 1 (initState cfgC1)).1.patience =
        cfgC1.original_patience :=
  ⟨by decide,
    (C2_improvement_rule cfgC1 ⟨true⟩ 1 (Flt.fin 5) (initState cfgC1) rfl rfl).1
      (by decide)⟩

/-- Reduction of an executed epoch when `self.validation_metric` is `None`:
line 288 raises an attribute error that the generic handler catches, so the
loop exits as failed at that epoch, after the epoch's logging. -/
theorem processEpoch_no_criterion {cfg : TConfig P} {epoch : ℕ} {m : Flt}
    (hm : cfg.events epoch = EpochEvent.metric m)
    (hc : cfg.validation_metric = none) (s : TState P) :
    processEpoch cfg epoch s =
      (logStep epoch m (trainPhase cfg epoch s), some (Exit.failed epoch)) := by
  unfold processEpoch
  rw [hm, hc]

/-- C3.  Every `CSDI.fit()` call with at least one epoch whose first epoch
computes its metric ends in the fatal `RuntimeError`: `CSDI.__init__` leaves
`self.validation_metric = None`, epoch 1's improvement test therefore raises,
and the handler re-raises because no best model exists yet. -/
theorem C3_csdi_fit_always_fatal (epochs : ℕ) (pat : Option ℤ)
    (strat : Option String) (hpo : Bool) (paramsAt : ℕ → ℕ)
    (events : ℕ → EpochEvent) (m : Flt) (he : 1 ≤ epochs)
    (h1 : events 1 = EpochEvent.metric m) :
    (runTrain (csdiTrainConfig epochs pat strat hpo paramsAt events)).outcome =
        Outcome.fatalRuntime ∧
      (runTrain (csdiTrainConfig epochs pat strat hpo paramsAt events)).exit =
        Exit.failed 1 := by
  have hrange : List.range' 1 (csdiTrainConfig epochs pat strat hpo paramsAt
      events).epochs = 1 :: List.range' 2 (epochs - 1) := by
    show List.range' 1 epochs = 1 :: List.range' 2 (epochs - 1)
    obtain ⟨k, rfl⟩ : ∃ k, epochs = k + 1 :=
      ⟨epochs - 1, (Nat.succ_pred_eq_of_pos he).symm⟩
    rfl
  have hpe := @processEpoch_no_criterion ℕ
    (csdiTrainConfig epochs pat strat hpo paramsAt events) 1 m h1 rfl
    (initState (csdiTrainConfig epochs pat strat hpo paramsAt events))
  unfold runTrain
  rw [hrange]
  unfold trainLoop
  rw [hpe]
  dsimp only
  rw [logStep_best_model_dict]
  exact ⟨rfl, rfl⟩

/-- Witness for C3: the concrete one-epoch `CSDI` run `cfgC3` is fatal. -/
theorem C3_witness :
    (runTrain cfgC3).outcome = Outcome.fatalRuntime ∧
      (runTrain cfgC3).exit = Exit.failed 1 :=
  C3_csdi_fit_always_fatal 1 none none false id (eventsOf [Flt.fin 5])
    (Flt.fin 5) (by decide) rfl

/-- Scenario A of the spec: lower-is-better metrics 5, 4, 3, 3, 3 with
patience 2 inside a budget of 10 epochs. -/
def cfgC4A : TConfig ℕ :=
  { epochs := 10, validation_metric := some ⟨true⟩, original_patience := some 2,
    model_saving_strategy := none, enableHPO := false, clsName := "CSDI",
    validation_metric_name := "metric (default)", paramsAt := id,
    events := eventsOf [Flt.fin 5, Flt.fin 4, Flt.fin 3, Flt.fin 3, Flt.fin 3] }

/-- Scenario B shape: higher-is-better metrics over 3 epochs, no patience. -/
def cfgC4B : TConfig ℕ :=
  { epochs := 3, validation_metric := some ⟨false⟩, original_patience := none,
    model_saving_strategy := none, enableHPO := false, clsName := "CSDI",
    validation_metric_name := "metric (default)", paramsAt := id,
    events := eventsOf [Flt.fin (mkRat 1 2), Flt.fin (mkRat 3 5), Flt.fin (mkRat 11 20)] }

/-- C4.  Early stopping fires exactly when the remaining patience reaches 0:
an early-stop exit always leaves `patience = some 0`; the loop continues past
an epoch only when the remaining patience is not 0; with patience absent the
run ends only on the epoch budget; and on Scenario A (lower-is-better metrics
5, 4, 3, 3, 3 with patience 2) the best epoch is 3 and the run stops after
epoch 5. -/
theorem C4_early_stop_exactly_at_zero_patience :
    (∀ (cfg : TConfig ℕ) (l : List ℕ) (s : TState ℕ) (e : ℕ),
        (trainLoop cfg l s).2 = Exit.earlyStop e →
        (trainLoop cfg l s).1.patience = some 0) ∧
    (∀ (cfg : TConfig ℕ) (epoch : ℕ) (s s1 : TState ℕ),
        processEpoch cfg epoch s = (s1, none) → ¬ s1.patience = some 0) ∧
    (∀ (cfg : TConfig ℕ) (c : Criterion), cfg.validation_metric = some c →
        cfg.original_patience = none →
        (∀ e, ∃ m, cfg.events e = EpochEvent.metric m) →
        (runTrain cfg).exit = Exit.completed) ∧
    ((runTrain cfgC4A).state.best_epoch = some 3 ∧
      (runTrain cfgC4A).exit = Exit.earlyStop 5) := by
  refine ⟨?_, ?_, ?_, by decide, by decide⟩
  · intro cfg l s e h
    exact trainLoop_earlyStop l s e h
  · intro cfg epoch s s1 h
    exact processEpoch_continue h
  · intro cfg c hc ho hev
    have hl := trainLoop_completed hc ho hev (List.range' 1 cfg.epochs)
      (initState cfg) (by rw [show (initState cfg).patience = cfg.original_patience from rfl, ho])
    unfold runTrain
    rcases hr : trainLoop cfg (List.range' 1 cfg.epochs) (initState cfg) with ⟨s, ex⟩
    rw [hr] at hl
    dsimp only at hl
    rw [hl]
    exact postOutcome_exit s Exit.completed

/-- Witness for C4: applying the no-patience part to the concrete
higher-is-better run `cfgC4B` shows it ends only on the epoch budget. -/
theorem C4_witness : (runTrain cfgC4B).exit = Exit.completed :=
  C4_early_stop_exactly_at_zero_patience.2.2.1 cfgC4B ⟨false⟩ rfl rfl
    (fun e =>
      ⟨[Flt.fin (mkRat 1 2), Flt.fin (mkRat 3 5), Flt.fin (mkRat 11 20)].getD (e - 1) (Flt.fin 0),
        rfl⟩)

/-- A one-epoch higher-is-better run whose only epoch produces the non-NaN
metric 0.5. -/
def cfgC5ce : TConfig ℕ :=
  { epochs := 1, validation_metric := some ⟨false⟩, original_patience := none,
    model_saving_strategy := none, enableHPO := false, clsName := "CSDI",
    validation_metric_name := "metric (default)", paramsAt := id,
    events := eventsOf [Flt.fin (mkRat 1 2)] }

/-- A one-epoch lower-is-better run with the finite metric 5. -/
def cfgC5w : TConfig ℕ :=
  { epochs := 1, validation_metric := some ⟨true⟩, original_patience := none,
    model_saving_strategy := none, enableHPO := false, clsName := "CSDI",
    validation_metric_name := "metric (default)", paramsAt := id,
    events := eventsOf [Flt.fin 5] }

/-- C5 counterexample.  On `cfgC5ce` (higher-is-better) the single epoch
produces a non-NaN metric, yet no best snapshot is ever recorded, because the
metric can never exceed the `+inf` initialization of `best_loss`: the claimed
equivalence "snapshot set iff some epoch produced a non-NaN metric" is false
in the higher-is-better direction. -/
theorem C5_counterexample :
    ¬ ((Option.isSome (runTrain cfgC5ce).state.best_model_dict = true) ↔
        ((List.range' 1 cfgC5ce.epochs).any
          (fun e => match cfgC5ce.events e with
            | EpochEvent.metric m => !m.isNan
            | _ => false) = true)) := by
  decide

/-- C5 amended.  At the end of every run: under lower-is-better the best
snapshot is set iff at least one executed epoch produced a metric strictly
below `+inf` in the IEEE order (non-NaN and not `+inf`); under
higher-is-better the best snapshot is never set, since no metric compares
greater than the `+inf` initialization of `best_loss`. -/
theorem C5_best_snapshot_iff_amended (cfg : TConfig ℕ) (c : Criterion)
    (hc : cfg.validation_metric = some c) :
    (c.lower_better = false → (runTrain cfg).state.best_model_dict = none) ∧
    (c.lower_better = true →
      Option.isSome (runTrain cfg).state.best_model_dict =
        (runTrain cfg).state.metricsSeen.any (fun m => Flt.lt m Flt.inf)) := by
  have hinv := runTrain_inv cfg
  exact ⟨fun hlb => hinv.hb_none c hc hlb, fun hlb => hinv.seen_iff c hc hlb⟩

/-- Witness for the amended C5: on the lower-is-better run `cfgC5w` the
equivalence evaluates with both sides true. -/
theorem C5_witness :
    Option.isSome (runTrain cfgC5w).state.best_model_dict =
      (runTrain cfgC5w).state.metricsSeen.any (fun m => Flt.lt m Flt.inf) :=
  (C5_best_snapshot_iff_amended cfgC5w ⟨true⟩ rfl).2 rfl

/-- A one-epoch lower-is-better run producing a NaN metric, with patience 3. -/
def cfgC6 : TConfig ℕ :=
  { epochs := 1, validation_metric := some ⟨true⟩, original_patience := some 3,
    model_saving_strategy := none, enableHPO := false, clsName := "CSDI",
    validation_metric_name := "metric (default)", paramsAt := id,
    events := eventsOf [Flt.nan] }

/-- C6.  An epoch whose observed metric is NaN emits the non-fatal warning and
leaves the best-model state untouched in either direction: `best_epoch`,
`best_loss` and the snapshot are unchanged, the patience is decremented rather
than reset, the epoch raises no error, and the loop proceeds to the next epoch
unless the decrement exhausted the patience. -/
theorem C6_nan_epoch_non_fatal_never_best (cfg : TConfig ℕ) (c : Criterion)
    (epoch : ℕ) (m : Flt) (s : TState ℕ) (hc : cfg.validation_metric = some c)
    (hm : cfg.events epoch = EpochEvent.metric m) (hnan : m.isNan = true) :
    (processEpoch cfg epoch s).1.nanWarnings = s.nanWarnings ++ [epoch] ∧
    (processEpoch cfg epoch s).1.best_epoch = s.best_epoch ∧
    (processEpoch cfg epoch s).1.best_loss = s.best_loss ∧
    (processEpoch cfg epoch s).1.best_model_dict = s.best_model_dict ∧
    (processEpoch cfg epoch s).1.patience = Option.map (fun p => p - 1) s.patience ∧
    ((processEpoch cfg epoch s).2 = none ∨
      (processEpoch cfg epoch s).2 = some (Exit.earlyStop epoch)) ∧
    (¬ (processEpoch cfg epoch s).1.patience = some 0 →
      (processEpoch cfg epoch s).2 = none) := by
  have hnan0 : m = Flt.nan := by cases m <;> simp_all [Flt.isNan]
  have hnb : newBestTest c.lower_better m
      (logStep epoch m (trainPhase cfg epoch s)).best_loss = false := by
    rw [hnan0]
    exact newBestTest_nan c.lower_better _
  have hfst := processEpoch_metric_fst hm hc s
  have hwarn : (processEpoch cfg epoch s).1.nanWarnings = s.nanWarnings ++ [epoch] := by
    rw [hfst, hpoStep_nanWarnings, saveStep_nanWarnings,
      bestStep_nanWarnings, logStep_nanWarnings_nan epoch hnan,
      trainPhase_nanWarnings]
  refine ⟨hwarn, ?_, ?_, ?_, ?_, ?_, ?_⟩
  · rw [hfst, bestStep_of_not_newBest cfg epoch hnb, hpoStep_best_epoch,
      saveStep_best_epoch]
    dsimp only
    rw [logStep_best_epoch, trainPhase_best_epoch]
  · rw [hfst, bestStep_of_not_newBest cfg epoch hnb, hpoStep_best_loss,
      saveStep_best_loss]
    dsimp only
    rw [logStep_best_loss, trainPhase_best_loss]
  · rw [hfst, bestStep_of_not_newBest cfg epoch hnb, hpoStep_best_model_dict,
      saveStep_best_model_dict]
    dsimp only
    rw [logStep_best_model_dict, trainPhase_best_model_dict]
  · rw [hfst, bestStep_of_not_newBest cfg epoch hnb, hpoStep_patience,
      saveStep_patience]
    dsimp only
    rw [logStep_patience, trainPhase_patience]
  · rw [processEpoch_metric_snd hm hc]
    split
    · exact Or.inr rfl
    · exact Or.inl rfl
  · intro hpat
    rw [processEpoch_metric_snd hm hc, if_neg hpat]

/-- Witness for C6: the NaN epoch of `cfgC6` on the fresh state warns, keeps
the best-model state untouched, decrements the patience to 2 and proceeds. -/
theorem C6_witness :
    (processEpoch cfgC6 1 (initState cfgC6)).1.nanWarnings =
        (initState cfgC6).nanWarnings ++ [1] ∧
      (processEpoch cfgC6 1 (initState cfgC6)).1.best_model_dict =
        (initState cfgC6).best_model_dict ∧
      (processEpoch cfgC6 1 (initState cfgC6)).2 = none :=
  ⟨(C6_nan_epoch_non_fatal_never_best cfgC6 ⟨true⟩ 1 Flt.nan (initState cfgC6)
      rfl rfl rfl).1,
    (C6_nan_epoch_non_fatal_never_best cfgC6 ⟨true⟩ 1 Flt.nan (initState cfgC6)
      rfl rfl rfl).2.2.2.1,
    (C6_nan_epoch_non_fatal_never_best cfgC6 ⟨true⟩ 1 Flt.nan (initState cfgC6)
      rfl rfl rfl).2.2.2.2.2.2 (by decide)⟩

/-- A three-epoch run whose first epoch improves (metric 5) and whose second
epoch is cut short by a keyboard interrupt. -/
def cfgC7 : TConfig ℕ :=
  { epochs := 3, validation_metric := some ⟨true⟩, original_patience := none,
    model_saving_strategy := none, enableHPO := false, clsName := "CSDI",
    validation_metric_name := "metric (default)", paramsAt := id,
    events := eventsOfE [EpochEvent.metric (Flt.fin 5), EpochEvent.interrupt] }

/-! How `runTrain` looks once the loop result is known. -/

theorem runTrainEq_completed {cfg : TConfig P} {s : TState P}
    (hr : trainLoop cfg (List.range' 1 cfg.epochs) (initState cfg) =
      (s, Exit.completed)) :
    runTrain cfg = postOutcome s Exit.completed := by
  unfold runTrain; rw [hr]

theorem runTrainEq_earlyStop {cfg : TConfig P} {s : TState P} {e : ℕ}
    (hr : trainLoop cfg (List.range' 1 cfg.epochs) (initState cfg) =
      (s, Exit.earlyStop e)) :
    runTrain cfg = postOutcome s (Exit.earlyStop e) := by
  unfold runTrain; rw [hr]

theorem runTrainEq_interrupted {cfg : TConfig P} {s : TState P} {e : ℕ}
    (hr : trainLoop cfg (List.range' 1 cfg.epochs) (initState cfg) =
      (s, Exit.interrupted e)) :
    runTrain cfg =
      postOutcome { s with interruptWarned := true } (Exit.interrupted e) := by
  unfold runTrain; rw [hr]

theorem runTrainEq_failed_none {cfg : TConfig P} {s : TState P} {e : ℕ}
    (hr : trainLoop cfg (List.range' 1 cfg.epochs) (initState cfg) =
      (s, Exit.failed e)) (hv : s.best_model_dict = none) :
    runTrain cfg = ⟨s, Exit.failed e, Outcome.fatalRuntime, s.live_params⟩ := by
  unfold runTrain
  rw [hr]
  dsimp only
  rw [hv]

theorem runTrainEq_failed_some {cfg : TConfig P} {s : TState P} {e : ℕ} {v : P}
    (hr : trainLoop cfg (List.range' 1 cfg.epochs) (initState cfg) =
      (s, Exit.failed e)) (hv : s.best_model_dict = some v) :
    runTrain cfg = postOutcome s (Exit.failed e) := by
  unfold runTrain
  rw [hr]
  dsimp only
  rw [hv]

/-- C7.  When the run is cut short by an interrupt or an unexpected epoch
error while a best snapshot already exists, no fatal error is raised, the
best snapshot is loaded into the live model, and in the interrupt case the
warning is logged. -/
theorem C7_interrupt_or_failure_with_snapshot_recovers (cfg : TConfig ℕ)
    (e : ℕ) (d : ℕ)
    (hex : (runTrain cfg).exit = Exit.interrupted e ∨
      (runTrain cfg).exit = Exit.failed e)
    (hbd : (runTrain cfg).state.best_model_dict = some d) :
    (runTrain cfg).outcome = Outcome.ok (some d) ∧
      ((runTrain cfg).exit = Exit.interrupted e →
        (runTrain cfg).state.interruptWarned = true) := by
  have hinv := runTrain_inv cfg
  have hlt := hinv.some_lt d hbd
  have hnan := Flt.ne_nan_of_lt_inf hlt
  have hninf := Flt.ne_inf_of_lt_inf hlt
  rcases hr : trainLoop cfg (List.range' 1 cfg.epochs) (initState cfg) with ⟨s, ex⟩
  cases ex with
  | completed =>
    rw [runTrainEq_completed hr, postOutcome_exit] at hex
    rcases hex with hex | hex <;> exact absurd hex (by simp)
  | earlyStop e2 =>
    rw [runTrainEq_earlyStop hr, postOutcome_exit] at hex
    rcases hex with hex | hex <;> exact absurd hex (by simp)
  | interrupted e2 =>
    have heq := runTrainEq_interrupted hr
    rw [heq, postOutcome_state] at hbd hnan hninf
    refine ⟨?_, fun _ => ?_⟩
    · rw [heq, postOutcome_ok_of (Exit.interrupted e2) hnan hninf]
      exact congrArg Outcome.ok hbd
    · rw [heq, postOutcome_state]
  | failed e2 =>
    cases hbmd : s.best_model_dict with
    | none =>
      have heq := runTrainEq_failed_none hr hbmd
      rw [heq] at hbd
      dsimp only at hbd
      rw [hbmd] at hbd
      exact absurd hbd (by simp)
    | some v =>
      have heq := runTrainEq_failed_some hr hbmd
      rw [heq, postOutcome_state] at hbd hnan hninf
      refine ⟨?_, fun hx => ?_⟩
      · rw [heq, postOutcome_ok_of (Exit.failed e2) hnan hninf]
        exact congrArg Outcome.ok hbd
      · rw [heq, postOutcome_exit] at hx
        exact absurd hx (by simp)

/-- Witness for C7: `cfgC7` is interrupted in epoch 2 after a best snapshot
was recorded in epoch 1; the run recovers, loads that snapshot, and has
logged the interrupt warning. -/
theorem C7_witness :
    (runTrain cfgC7).outcome = Outcome.ok (some 1) ∧
      ((runTrain cfgC7).exit = Exit.interrupted 2 →
        (runTrain cfgC7).state.interruptWarned = true) :=
  C7_interrupt_or_failure_with_snapshot_recovers cfgC7 2 1 (Or.inl (by decide))
    (by decide)

/-- A two-epoch lower-is-better run in which every epoch produces NaN. -/
def cfgC8 : TConfig ℕ :=
  { epochs := 2, validation_metric := some ⟨true⟩, original_patience := none,
    model_saving_strategy := none, enableHPO := false, clsName := "CSDI",
    validation_metric_name := "metric (default)", paramsAt := id,
    events := eventsOf [Flt.nan, Flt.nan] }

/-- C8.  Every run that ends with no recorded best snapshot raises a fatal
error at its end (the `RuntimeError` of the exception handler or the
`ValueError` of the post-loop check) and never loads model parameters. -/
theorem C8_no_snapshot_fatal (cfg : TConfig ℕ)
    (h : (runTrain cfg).state.best_model_dict = none) :
    ((runTrain cfg).outcome = Outcome.fatalRuntime ∨
      (runTrain cfg).outcome = Outcome.fatalValue) ∧
    ∀ d, ¬ (runTrain cfg).outcome = Outcome.ok d := by
  have hinv := runTrain_inv cfg
  have hinf := hinv.none_inf h
  have hfatal : (runTrain cfg).outcome = Outcome.fatalRuntime ∨
      (runTrain cfg).outcome = Outcome.fatalValue := by
    rcases hr : trainLoop cfg (List.range' 1 cfg.epochs) (initState cfg) with ⟨s, ex⟩
    cases ex with
    | completed =>
      have heq := runTrainEq_completed hr
      rw [heq, postOutcome_state] at hinf
      right
      rw [heq]
      unfold postOutcome
      rw [if_pos (Or.inr hinf)]
    | earlyStop e =>
      have heq := runTrainEq_earlyStop hr
      rw [heq, postOutcome_state] at hinf
      right
      rw [heq]
      unfold postOutcome
      rw [if_pos (Or.inr hinf)]
    | interrupted e =>
      have heq := runTrainEq_interrupted hr
      rw [heq, postOutcome_state] at hinf
      right
      rw [heq]
      unfold postOutcome
      rw [if_pos (Or.inr hinf)]
    | failed e =>
      cases hbmd : s.best_model_dict with
      | none =>
        left
        rw [runTrainEq_failed_none hr hbmd]
      | some v =>
        have heq := runTrainEq_failed_some hr hbmd
        rw [heq, postOutcome_state] at h
        rw [hbmd] at h
        exact absurd h (by simp)
  refine ⟨hfatal, fun d hok => ?_⟩
  rcases hfatal with hf | hf <;> rw [hok] at hf <;> exact absurd hf (by simp)

/-- Witness for C8: the all-NaN run `cfgC8` records no snapshot, is fatal,
and loads nothing. -/
theorem C8_witness :
    ((runTrain cfgC8).outcome = Outcome.fatalRuntime ∨
      (runTrain cfgC8).outcome = Outcome.fatalValue) ∧
      ∀ d, ¬ (runTrain cfgC8).outcome = Outcome.ok d :=
  C8_no_snapshot_fatal cfgC8 (by decide)

/-- Scenario E of the spec: checkpoint strategy "better", lower-is-better
metrics 5, 4, 4.5, 3 over 4 epochs. -/
def cfgC9 : TConfig ℕ :=
  { epochs := 4, validation_metric := some ⟨true⟩, original_patience := none,
    model_saving_strategy := some "better", enableHPO := false, clsName := "CSDI",
    validation_metric_name := "metric (default)", paramsAt := id,
    events := eventsOf [Flt.fin 5, Flt.fin 4, Flt.fin (mkRat 9 2), Flt.fin 3] }

/-- C9.  Under the "better" strategy a checkpoint save is confirmed after
exactly the epochs that set a new best; the artifact name is built from the
estimator class name, the epoch index and the formatted metric value; and on
Scenario E (metrics 5, 4, 4.5, 3, lower-is-better) saves happen after epochs
1, 2 and 4 only. -/
theorem C9_better_strategy_saves_iff_new_best :
    (∀ (cfg : TConfig ℕ) (c : Criterion) (epoch : ℕ) (m : Flt) (s : TState ℕ),
        cfg.validation_metric = some c →
        cfg.events epoch = EpochEvent.metric m →
        cfg.model_saving_strategy = some "better" →
        ¬ s.best_epoch = some epoch →
        (processEpoch cfg epoch s).1.saves =
          s.saves ++ (if newBestTest c.lower_better m s.best_loss = true
            then [(epoch, savingName cfg epoch m)] else [])) ∧
    (∀ (cfg : TConfig ℕ) (epoch : ℕ) (m : Flt),
        savingName cfg epoch m =
          cfg.clsName ++ "_epoch" ++ toString epoch ++ "_" ++
            cfg.validation_metric_name ++ fmt4 m) ∧
    ((runTrain cfgC9).state.saves =
      [(1, "CSDI_epoch1_metric (default)5.0000"),
        (2, "CSDI_epoch2_metric (default)4.0000"),
        (4, "CSDI_epoch4_metric (default)3.0000")]) := by
  refine ⟨?_, fun cfg epoch m => rfl, by decide⟩
  intro cfg c epoch m s hc hm hstrat hbe
  rw [processEpoch_metric_fst hm hc, hpoStep_saves]
  by_cases hnb : newBestTest c.lower_better m s.best_loss = true
  · have hnb' : newBestTest c.lower_better m
        (logStep epoch m (trainPhase cfg epoch s)).best_loss = true := by
      rw [logStep_best_loss, trainPhase_best_loss]; exact hnb
    have hbe2 : (bestStep cfg epoch m c.lower_better
        (logStep epoch m (trainPhase cfg epoch s))).best_epoch = some epoch := by
      rw [bestStep_of_newBest cfg epoch hnb']
    unfold saveStep
    rw [if_pos (Or.inr ⟨hbe2, hstrat⟩), if_pos hnb]
    rw [bestStep_saves, logStep_saves, trainPhase_saves]
  · rw [Bool.not_eq_true] at hnb
    have hnb' : newBestTest c.lower_better m
        (logStep epoch m (trainPhase cfg epoch s)).best_loss = false := by
      rw [logStep_best_loss, trainPhase_best_loss]; exact hnb
    have hbe2 : (bestStep cfg epoch m c.lower_better
        (logStep epoch m (trainPhase cfg epoch s))).best_epoch = s.best_epoch := by
      rw [bestStep_of_not_newBest cfg epoch hnb']
      dsimp only
      rw [logStep_best_epoch, trainPhase_best_epoch]
    have hcond : ¬ (cfg.model_saving_strategy = some "all" ∨
        ((bestStep cfg epoch m c.lower_better
            (logStep epoch m (trainPhase cfg epoch s))).best_epoch =
            some epoch ∧
          cfg.model_saving_strategy = some "better")) := by
      rintro (hall | ⟨hbe3, _⟩)
      · rw [hstrat] at hall
        exact absurd (Option.some.inj hall) (by decide)
      · rw [hbe2] at hbe3
        exact hbe hbe3
    unfold saveStep
    rw [if_neg hcond, if_neg (by simp [hnb])]
    rw [bestStep_saves, logStep_saves, trainPhase_saves, List.append_nil]

/-- Witness for C9: epoch 1 of the Scenario E run confirms a save because it
sets a new best. -/
theorem C9_witness :
    (processEpoch cfgC9 1 (initState cfgC9)).1.saves =
      (initState cfgC9).saves ++
        (if newBestTest true (Flt.fin 5) (initState cfgC9).best_loss = true
          then [(1, savingName cfgC9 1 (Flt.fin 5))] else []) :=
  C9_better_strategy_saves_iff_new_best.1 cfgC9 ⟨true⟩ 1 (Flt.fin 5)
    (initState cfgC9) rfl rfl rfl (by decide)

/-- A one-epoch HPO-enabled run with the finite metric 5 and no patience. -/
def cfgC10a : TConfig ℕ :=
  { epochs := 1, validation_metric := some ⟨true⟩, original_patience := none,
    model_saving_strategy := none, enableHPO := true, clsName := "CSDI",
    validation_metric_name := "metric (default)", paramsAt := id,
    events := eventsOf [Flt.fin 5] }

/-- A two-epoch HPO-enabled run with improving metrics 5, 4 and no patience. -/
def cfgC10b : TConfig ℕ :=
  { epochs := 2, validation_metric := some ⟨true⟩, original_patience := none,
    model_saving_strategy := none, enableHPO := true, clsName := "CSDI",
    validation_metric_name := "metric (default)", paramsAt := id,
    events := eventsOf [Flt.fin 5, Flt.fin 4] }

/-- C10.  The final-report condition `epoch == self.epochs - 1` is off by one
for the 1-based epoch loop: the one-epoch run `cfgC10a` completes its budget,
reports its metric as an intermediate result, but never reports any final
result; the two-epoch run `cfgC10b` completes, yet its only final report
(sent at epoch 1, the penultimate epoch) carries the stale best 5 instead of
the terminal best 4. -/
theorem C10_hpo_final_report_off_by_one :
    cfgC10a.enableHPO = true ∧
      (runTrain cfgC10a).exit = Exit.completed ∧
      (runTrain cfgC10a).state.interReports = [Flt.fin 5] ∧
      (runTrain cfgC10a).state.finalReports = [] ∧
      (runTrain cfgC10b).exit = Exit.completed ∧
      (runTrain cfgC10b).state.finalReports = [Flt.fin 5] ∧
      (runTrain cfgC10b).state.best_loss = Flt.fin 4 := by
  decide

end PyPOTS
